import Mathlib

/-!
Shallow embedding of the Headlamp "Projects" core: the selector matcher and
the health aggregation from
`frontend/src/components/project/projectUtils.ts`, with the data model from
`frontend/src/redux/projectsSlice.ts`.

JavaScript values are modelled as follows: a possibly-undefined field is an
`Option`, a string-keyed object is an association list preserving insertion
order (JavaScript objects have unique keys; `Object.entries` yields pairs in
insertion order), and JavaScript strict equality `===` between a string and a
possibly-undefined string is equality of `Option String` values, since
`s === undefined` is `false` for every string `s`.
-/

namespace Headlamp

/-- `StringSelector` from `projectsSlice.ts`. The TypeScript type narrows
`operator` to the union `'Equals' | 'NotEquals'`, but the form UI
(`ProjectForm.tsx`, `OPERATOR_OPTIONS`) also feeds the runtime strings
`'Exists'` and `'NotExists'` through the same field, so the operator is
modelled as an arbitrary string. -/
structure StringSelector where
  operator : String
  value : String
  deriving DecidableEq, Repr

/-- `ApiResource` from `lib/k8s/api/v2/ApiResource`, with the fields used by
the project feature (see `defaultApiResources` in `projectUtils.ts`);
`groupName` is absent for the core group. -/
structure ApiResource where
  apiVersion : String
  version : String
  groupName : Option String
  pluralName : String
  singularName : String
  kind : String
  isNamespaced : Bool
  deriving DecidableEq, Repr

/-- The portion of Kubernetes object metadata the project feature reads.
`namespace'` models `metadata.namespace` (optional: cluster-scoped resources
have none); `labels` models the optional `metadata.labels` mapping. -/
structure KubeMetadata where
  name : String
  namespace' : Option String
  labels : Option (List (String × String))
  deriving DecidableEq, Repr

/-- Status fields consumed by the health classification (spec section 4.2);
absent numeric fields are `none` and default to 0 on read. -/
structure KubeStatus where
  readyReplicas : Option Int
  numberReady : Option Int
  desiredNumberScheduled : Option Int
  phase : Option String
  readyCondition : Option String
  deriving DecidableEq, Repr

/-- Spec fields consumed by the health classification: the desired replica
count of a Deployment or StatefulSet. -/
structure KubeSpec where
  replicas : Option Int
  deriving DecidableEq, Repr

/-- The portion of a `KubeObject` the project feature reads. `metadata` is
optional because the matcher defensively reads it with `?.`
(`resource.metadata?.labels`, `resource.metadata?.namespace`). -/
structure KubeObject where
  kind : String
  cluster : String
  metadata : Option KubeMetadata
  spec : KubeSpec
  status : KubeStatus
  deriving DecidableEq, Repr

/-- `ProjectDefinition` from `projectsSlice.ts`. `labelSelectors` is a
`Record<string, StringSelector>`, modelled as its entry list. -/
structure ProjectDefinition where
  id : String
  name : String
  description : Option String
  color : Option String
  icon : Option String
  labelSelectors : List (String × StringSelector)
  namespaceSelectors : List StringSelector
  clusterSelectors : List StringSelector
  apiResources : List ApiResource
  createdAt : String
  updatedAt : String
  deriving DecidableEq, Repr

/-- The labels mapping read defensively:
`resource.metadata?.labels || {}` (absent metadata or absent labels give the
empty mapping). -/
def resourceLabels (resource : KubeObject) : List (String × String) :=
  (resource.metadata.bind fun m => m.labels).getD []

/-- The namespace read defensively: `resource.metadata?.namespace`. -/
def resourceNamespace (resource : KubeObject) : Option String :=
  resource.metadata.bind fun m => m.namespace'

/-- `matchesLabelSelector` from `projectUtils.ts`: look the key up in the
resource labels (`labels[key]`, `none` when absent) and switch on the
operator; `Equals` is strict equality of the looked-up value with the
selector value (`none === v` is false), `NotEquals` its negation, and any
other operator falls to the `default` branch returning false. -/
def matchesLabelSelector (resource : KubeObject) (key : String)
    (selector : StringSelector) : Bool :=
  let labelValue := (resourceLabels resource).lookup key
  if selector.operator == "Equals" then
    labelValue == some selector.value
  else if selector.operator == "NotEquals" then
    labelValue != some selector.value
  else
    false

/-- `matchesProject` from `projectUtils.ts`, with each early `return false`
rendered as an `if ... then false else ...` chain in source order:
1. non-empty `apiResources` must contain the resource kind;
2. non-empty `clusterSelectors` must contain a selector whose `value` equals
   `resource.cluster` (the operator is not consulted);
3. non-empty `namespaceSelectors` must contain a selector whose `value`
   equals `resource.metadata?.namespace` (the operator is not consulted);
4. non-empty `labelSelectors` must have every entry satisfy
   `matchesLabelSelector`;
5. when `labelSelectors` and `namespaceSelectors` are both empty the
   function returns false ("If no selectors are defined, do not match
   anything");
6. otherwise true. -/
def matchesProject (resource : KubeObject) (project : ProjectDefinition) : Bool :=
  if project.apiResources.length > 0 &&
      !(project.apiResources.any fun apiResource => apiResource.kind == resource.kind) then
    false
  else if project.clusterSelectors.length > 0 &&
      !(project.clusterSelectors.any fun cluster => cluster.value == resource.cluster) then
    false
  else if project.namespaceSelectors.length > 0 &&
      !(project.namespaceSelectors.any fun ns => some ns.value == resourceNamespace resource) then
    false
  else if project.labelSelectors.length > 0 &&
      !(project.labelSelectors.all fun kv => matchesLabelSelector resource kv.1 kv.2) then
    false
  else if project.labelSelectors.length == 0 && project.namespaceSelectors.length == 0 then
    false
  else
    true

/-- `getProjectResources` from `projectUtils.ts`: filter the resource list by
`matchesProject`. -/
def getProjectResources (project : ProjectDefinition)
    (resources : List KubeObject) : List KubeObject :=
  resources.filter fun resource => matchesProject resource project

/-- `getHealthIcon` from `projectUtils.ts`. The counts are non-negative
resource counts, so they are modelled as naturals. -/
def getHealthIcon (healthy unhealthy warning : Nat) : String :=
  if healthy + unhealthy + warning == 0 then "mdi:help-circle"
  else if unhealthy > 0 then "mdi:alert-circle"
  else if warning > 0 then "mdi:alert"
  else "mdi:check-circle"

/-- Modelled from the spec: `getStatus` of
`components/resourceMap/nodes/KubeObjectStatus` is imported by
`projectUtils.ts` but its source is not part of this repository snapshot, so
it is transcribed from the per-kind classification table of spec section 4.2
(first matching rule wins, default healthy, missing numeric fields read as
0). The three `KubeObjectStatus` values are the strings used as bucket keys
by `ProjectResourcesTab.tsx`: `success`, `warning`, `error`. -/
def getStatus (resource : KubeObject) : String :=
  if resource.kind == "Deployment" || resource.kind == "StatefulSet" then
    if resource.status.readyReplicas.getD 0 == 0 then "error"
    else if resource.status.readyReplicas.getD 0 < resource.spec.replicas.getD 0 then "warning"
    else "success"
  else if resource.kind == "DaemonSet" then
    if resource.status.numberReady.getD 0 == 0 then "error"
    else if resource.status.numberReady.getD 0 <
        resource.status.desiredNumberScheduled.getD 0 then "warning"
    else "success"
  else if resource.kind == "Pod" then
    if resource.status.phase == some "Failed" ||
        resource.status.phase == some "CrashLoopBackOff" then "error"
    else if resource.status.phase == some "Pending" ||
        resource.status.readyCondition != some "True" then "warning"
    else "success"
  else "success"

/-- One step of lodash `countBy`: bump the count of key `k`, creating the key
with count 1 on first sight (JavaScript objects keep keys in insertion
order). -/
def countByInsert (acc : List (String × Nat)) (k : String) : List (String × Nat) :=
  if acc.any fun p => p.1 == k then
    acc.map fun p => if p.1 == k then (p.1, p.2 + 1) else p
  else
    acc ++ [(k, 1)]

/-- Lodash `countBy`: fold the collection, counting occurrences of each key
produced by `f`. Keys never produced are absent from the result, not 0. -/
def countBy {α : Type} (xs : List α) (f : α → String) : List (String × Nat) :=
  xs.foldl (fun acc x => countByInsert acc (f x)) []

/-- `getResourcesHealth` from `projectUtils.ts`:
`countBy(resources, it => getStatus(it))`. The TypeScript cast
`as Record<KubeObjectStatus, number>` only asserts a type; the value is
whatever `countBy` built. -/
def getResourcesHealth (resources : List KubeObject) : List (String × Nat) :=
  countBy resources fun it => getStatus it

/-- Per-operator selector evaluation as the SPEC words it for cluster and
namespace selectors (spec section 4.1 steps 2 and 3: "Equals: value
equality; NotEquals: value inequality"), stated against an optional target
so it covers `resource.namespace` as well. This definition follows the spec,
not the source, and exists only to be compared with `matchesProject`. -/
def specEvalStringSelector (selector : StringSelector) (target : Option String) : Bool :=
  if selector.operator == "Equals" then some selector.value == target
  else if selector.operator == "NotEquals" then some selector.value != target
  else false

/-! Concrete example data, mirroring the fixtures of the source test file
(`baseProject`, `makeDeployment`). -/

/-- Resource constructor for examples, analogous to the `makeDeployment`
family of fixture helpers in the source tests. -/
def mkResource (kind cluster : String) (ns : Option String)
    (labels : List (String × String)) : KubeObject :=
  { kind := kind, cluster := cluster
    metadata := some { name := "r", namespace' := ns, labels := some labels }
    spec := { replicas := none }
    status := { readyReplicas := none, numberReady := none,
                desiredNumberScheduled := none, phase := none, readyCondition := none } }

/-- The all-empty project of the source tests (`baseProject`). -/
def baseProject : ProjectDefinition :=
  { id := "p", name := "proj", description := some "", color := some "#1976d2"
    icon := some "mdi:application", labelSelectors := [], namespaceSelectors := []
    clusterSelectors := [], apiResources := [], createdAt := "now", updatedAt := "now" }

/-- A deployment labelled `app: shop` in namespace `default` of
`cluster-a`, as in the source tests. -/
def shopDeployment : KubeObject :=
  mkResource "Deployment" "cluster-a" (some "default") [("app", "shop")]

/-- A resource with no metadata at all (malformed input for C8/C10). -/
def bareResource : KubeObject :=
  { kind := "Deployment", cluster := "cluster-a", metadata := none
    spec := { replicas := none }
    status := { readyReplicas := none, numberReady := none,
                desiredNumberScheduled := none, phase := none, readyCondition := none } }

example :
    matchesProject shopDeployment
      { baseProject with
        labelSelectors := [("app", { operator := "Equals", value := "shop" })]
        namespaceSelectors := [{ operator := "Equals", value := "default" }]
        clusterSelectors := [{ operator := "Equals", value := "cluster-a" }] } = true := by
  decide

/-- C4: a project whose four selector groups are all empty matches no
resource: `matchesProject` returns `false` for every resource. -/
theorem c4_all_empty_matches_nothing (resource : KubeObject) (project : ProjectDefinition)
    (h1 : project.labelSelectors = []) (h2 : project.namespaceSelectors = [])
    (h3 : project.clusterSelectors = []) (h4 : project.apiResources = []) :
    matchesProject resource project = false := by
  simp [matchesProject, h1, h2, h3, h4]

/-- C4 witness: the all-empty `baseProject` does not match the concrete
`shopDeployment`. -/
theorem c4_witness : matchesProject shopDeployment baseProject = false :=
  c4_all_empty_matches_nothing shopDeployment baseProject rfl rfl rfl rfl

/-- C6: `getProjectResources` is exactly the filter of the input list by the
match predicate; it is idempotent, and its output is a sublist of the input
(same relative order). -/
theorem c6_membership_filter_idempotent_sublist (project : ProjectDefinition)
    (resources : List KubeObject) :
    getProjectResources project resources =
      resources.filter (fun resource => matchesProject resource project) ∧
    getProjectResources project (getProjectResources project resources) =
      getProjectResources project resources ∧
    (getProjectResources project resources).Sublist resources := by
  refine ⟨rfl, ?_, List.filter_sublist resources⟩
  simp [getProjectResources, List.filter_filter]

/-- C7: `getHealthIcon` is the fixed three-way priority: zero total gives the
unknown marker; otherwise a positive unhealthy count gives the alert marker;
otherwise a positive warning count gives the caution marker; otherwise the
ok marker. -/
theorem c7_health_icon_priority (healthy unhealthy warning : Nat) :
    (healthy + unhealthy + warning = 0 →
      getHealthIcon healthy unhealthy warning = "mdi:help-circle") ∧
    (healthy + unhealthy + warning ≠ 0 → 0 < unhealthy →
      getHealthIcon healthy unhealthy warning = "mdi:alert-circle") ∧
    (healthy + unhealthy + warning ≠ 0 → unhealthy = 0 → 0 < warning →
      getHealthIcon healthy unhealthy warning = "mdi:alert") ∧
    (healthy + unhealthy + warning ≠ 0 → unhealthy = 0 → warning = 0 →
      getHealthIcon healthy unhealthy warning = "mdi:check-circle") := by
  refine ⟨fun h0 => ?_, fun h0 hu => ?_, fun h0 hu hw => ?_, fun h0 hu hw => ?_⟩ <;>
    simp only [getHealthIcon, beq_iff_eq] <;> split_ifs <;> first | rfl | omega

/-- C7 witness: the four branches evaluated at concrete counts. -/
theorem c7_witness :
    getHealthIcon 0 0 0 = "mdi:help-circle" ∧ getHealthIcon 0 1 0 = "mdi:alert-circle" ∧
    getHealthIcon 0 0 1 = "mdi:alert" ∧ getHealthIcon 1 0 0 = "mdi:check-circle" :=
  ⟨(c7_health_icon_priority 0 0 0).1 (by decide),
   (c7_health_icon_priority 0 1 0).2.1 (by decide) (by decide),
   (c7_health_icon_priority 0 0 1).2.2.1 (by decide) (by decide) (by decide),
   (c7_health_icon_priority 1 0 0).2.2.2 (by decide) (by decide) (by decide)⟩

/-- Normal form of the early-return chain of `matchesProject` as one Boolean
conjunction. The label gate collapses to the bare `all` because an empty
entry list satisfies `all` vacuously, exactly as the skipped gate does. -/
theorem matchesProject_eq_conj (resource : KubeObject) (project : ProjectDefinition) :
    matchesProject resource project =
      ((project.apiResources.isEmpty ||
          project.apiResources.any fun apiResource => apiResource.kind == resource.kind) &&
        (project.clusterSelectors.isEmpty ||
          project.clusterSelectors.any fun cluster => cluster.value == resource.cluster) &&
        (project.namespaceSelectors.isEmpty ||
          project.namespaceSelectors.any fun ns => some ns.value == resourceNamespace resource) &&
        (project.labelSelectors.all fun kv => matchesLabelSelector resource kv.1 kv.2) &&
        !(project.labelSelectors.isEmpty && project.namespaceSelectors.isEmpty)) := by
  have hb : ∀ c e : Bool, (if c = true then false else e) = (!c && e) := by
    intro c e; cases c <;> simp
  have hlen : ∀ {α : Type} (l : List α), (!decide (0 < l.length)) = l.isEmpty := by
    intro α l; cases l <;> simp
  have hbeq : ∀ {α : Type} (l : List α), (l.length == 0) = l.isEmpty := by
    intro α l; cases l <;> simp
  have hall : ∀ {α : Type} (l : List α) (p : α → Bool), (l.isEmpty || l.all p) = l.all p := by
    intro α l p; cases l <;> simp
  simp only [matchesProject, hb, Bool.not_and, Bool.not_not, Bool.and_true, Bool.and_assoc,
    hlen, hbeq, hall]

/-- C1 data: a project whose only non-empty selector group is `apiResources`
(allowing kind `Pod`), and a Pod resource it should therefore match
according to the claim. -/
def c1Project : ProjectDefinition :=
  { baseProject with
    apiResources := [{ apiVersion := "v1", version := "v1", groupName := none
                       pluralName := "pods", singularName := "pod", kind := "Pod"
                       isNamespaced := true }] }

/-- C1 data: a Pod in the allow-list of `c1Project`. -/
def c1Pod : KubeObject := mkResource "Pod" "cluster-a" (some "default") []

/-- C1 counterexample: `c1Project` has a non-empty selector group
(`apiResources`) whose condition holds for `c1Pod` (its kind is allowed),
and its other three groups are empty, yet `matchesProject` returns `false` —
the emptiness shortcut fires even though not all four groups are empty,
because it only inspects `labelSelectors` and `namespaceSelectors`. -/
theorem c1_counterexample :
    c1Project.apiResources ≠ [] ∧
    (c1Project.apiResources.any fun a => a.kind == c1Pod.kind) = true ∧
    c1Project.clusterSelectors = [] ∧
    c1Project.namespaceSelectors = [] ∧
    c1Project.labelSelectors = [] ∧
    matchesProject c1Pod c1Project = false := by
  refine ⟨by decide, by decide, rfl, rfl, rfl, by decide⟩

/-- C1 amended: `matchesProject` returns `true` exactly when every non-empty
selector group's condition holds for the resource AND at least one of
`labelSelectors` or `namespaceSelectors` is non-empty; in particular the
emptiness-only refusal happens exactly when `labelSelectors` and
`namespaceSelectors` are both empty, regardless of the other two groups. -/
theorem c1_amended_characterization (resource : KubeObject) (project : ProjectDefinition) :
    matchesProject resource project = true ↔
      ((project.apiResources ≠ [] →
          ∃ a ∈ project.apiResources, a.kind = resource.kind) ∧
        (project.clusterSelectors ≠ [] →
          ∃ s ∈ project.clusterSelectors, s.value = resource.cluster) ∧
        (project.namespaceSelectors ≠ [] →
          ∃ s ∈ project.namespaceSelectors, some s.value = resourceNamespace resource) ∧
        (∀ kv ∈ project.labelSelectors, matchesLabelSelector resource kv.1 kv.2 = true) ∧
        (project.labelSelectors ≠ [] ∨ project.namespaceSelectors ≠ [])) := by
  rw [matchesProject_eq_conj]
  have hne : ∀ {α : Type} (l : List α), l.isEmpty = false ↔ l ≠ [] := by
    intro α l; cases l <;> simp
  simp only [List.any_eq_true, List.all_eq_true, List.isEmpty_iff, hne, beq_iff_eq,
    Bool.and_eq_true, Bool.or_eq_true, Bool.not_eq_true', Bool.and_eq_false_iff,
    ne_eq, Prod.forall]
  tauto

/-- C1 amended witness: the characterization applied to the concrete
`shopDeployment` and a project selecting namespace `default`. -/
theorem c1_amended_witness :
    matchesProject shopDeployment
      { baseProject with namespaceSelectors := [{ operator := "Equals", value := "default" }] } =
      true :=
  (c1_amended_characterization shopDeployment
    { baseProject with
      namespaceSelectors := [{ operator := "Equals", value := "default" }] }).mpr
    (by decide)

/-- C2 data: a project with a `NotEquals cluster-a` cluster selector and an
`Equals default` namespace selector. -/
def c2Project : ProjectDefinition :=
  { baseProject with
    clusterSelectors := [{ operator := "NotEquals", value := "cluster-a" }]
    namespaceSelectors := [{ operator := "Equals", value := "default" }] }

/-- C2 data: a resource in `cluster-a`, namespace `default`. -/
def c2Resource : KubeObject := mkResource "Deployment" "cluster-a" (some "default") []

/-- C2 counterexample: every selector of the non-empty `clusterSelectors`
group of `c2Project` evaluates false against `c2Resource.cluster` under the
operator-aware evaluation the claim describes (the only selector is
`NotEquals cluster-a` and the cluster is `cluster-a`), so the claim requires
`matchesProject` to return `false`; the code returns `true`, because it
compares only selector values and ignores the operator. -/
theorem c2_counterexample :
    c2Project.clusterSelectors ≠ [] ∧
    (∀ s ∈ c2Project.clusterSelectors,
      specEvalStringSelector s (some c2Resource.cluster) = false) ∧
    matchesProject c2Resource c2Project = true := by
  refine ⟨by decide, by decide, by decide⟩

/-- C2 amended: for a non-empty `clusterSelectors` (resp.
`namespaceSelectors`) group the condition is value equality only — the
selector operator is never consulted, so a `NotEquals` selector is evaluated
exactly like an `Equals` one: if no selector VALUE equals the cluster (resp.
the present namespace), `matchesProject` returns false, and rewriting every
operator of those two groups to an arbitrary string leaves the result
unchanged. -/
theorem c2_amended_value_only (resource : KubeObject) (project : ProjectDefinition) :
    (project.clusterSelectors ≠ [] →
      (∀ s ∈ project.clusterSelectors, s.value ≠ resource.cluster) →
      matchesProject resource project = false) ∧
    (project.namespaceSelectors ≠ [] →
      (∀ s ∈ project.namespaceSelectors, some s.value ≠ resourceNamespace resource) →
      matchesProject resource project = false) ∧
    (∀ newOperator : String,
      matchesProject resource
        { project with
          clusterSelectors :=
            project.clusterSelectors.map fun s => { s with operator := newOperator }
          namespaceSelectors :=
            project.namespaceSelectors.map fun s => { s with operator := newOperator } } =
      matchesProject resource project) := by
  refine ⟨fun h1 h2 => ?_, fun h1 h2 => ?_, fun newOperator => ?_⟩
  · rw [matchesProject_eq_conj]
    have : (project.clusterSelectors.any fun cluster =>
        cluster.value == resource.cluster) = false := by
      simp only [List.any_eq_false, beq_iff_eq]
      exact h2
    simp [this, List.isEmpty_iff, h1]
  · rw [matchesProject_eq_conj]
    have : (project.namespaceSelectors.any fun ns =>
        some ns.value == resourceNamespace resource) = false := by
      simp only [List.any_eq_false, beq_iff_eq]
      exact h2
    simp [this, List.isEmpty_iff, h1]
  · rw [matchesProject_eq_conj, matchesProject_eq_conj]
    have hmapEmpty : ∀ {α β : Type} (f : α → β) (l : List α),
        (l.map f).isEmpty = l.isEmpty := by
      intro α β f l; cases l <;> rfl
    simp [List.any_map, hmapEmpty, Function.comp_def]

/-- C2 amended witness: a single `Equals other` cluster selector whose value
differs from the concrete resource cluster makes the match fail, by the
first conjunct of the amended theorem. -/
theorem c2_amended_witness :
    matchesProject shopDeployment
      { baseProject with clusterSelectors := [{ operator := "Equals", value := "other" }] } =
      false :=
  (c2_amended_value_only shopDeployment
    { baseProject with
      clusterSelectors := [{ operator := "Equals", value := "other" }] }).1
    (by decide) (by decide)

/-- C3: evaluation of the health aggregation at the failing input, the empty
resource list. Lodash `countBy` only creates a key when it counts at least
one element, so `getResourcesHealth []` is the EMPTY record: none of the
`success`, `warning`, `error` buckets is present (each reads back as
`undefined` in the source, `none` here), which is not the record with all
three buckets zero that the claim (and the `as Record<KubeObjectStatus,
number>` cast in the source) describes. -/
theorem c3_empty_health_is_empty_record :
    getResourcesHealth [] = [] ∧
    (getResourcesHealth []).lookup "success" = none ∧
    (getResourcesHealth []).lookup "warning" = none ∧
    (getResourcesHealth []).lookup "error" = none :=
  ⟨rfl, rfl, rfl, rfl⟩

/-- C5: label-selector semantics. The non-empty label group is AND-combined
(`all` over the entry list, equivalently every entry must hold) and gates
`matchesProject` to false when it fails; a key absent from the resource
labels makes `Equals` false and `NotEquals` true; on a present key
`NotEquals` is the exact Boolean negation of `Equals`. -/
theorem c5_label_selector_semantics (resource : KubeObject) (project : ProjectDefinition)
    (key v : String) :
    (project.labelSelectors ≠ [] →
      ((project.labelSelectors.all fun kv => matchesLabelSelector resource kv.1 kv.2) = true ↔
        ∀ kv ∈ project.labelSelectors, matchesLabelSelector resource kv.1 kv.2 = true)) ∧
    (project.labelSelectors ≠ [] →
      (project.labelSelectors.all fun kv => matchesLabelSelector resource kv.1 kv.2) = false →
      matchesProject resource project = false) ∧
    ((resourceLabels resource).lookup key = none →
      matchesLabelSelector resource key { operator := "Equals", value := v } = false ∧
      matchesLabelSelector resource key { operator := "NotEquals", value := v } = true) ∧
    (∀ x, (resourceLabels resource).lookup key = some x →
      matchesLabelSelector resource key { operator := "NotEquals", value := v } =
        !matchesLabelSelector resource key { operator := "Equals", value := v }) := by
  refine ⟨fun _ => List.all_eq_true, fun h1 h2 => ?_, fun h => ?_, fun x h => ?_⟩
  · rw [matchesProject_eq_conj]
    simp [h2]
  · constructor <;> simp [matchesLabelSelector, h]
  · simp only [matchesLabelSelector, h]
    rfl

/-- C5 witness: the semantics applied at a concrete deployment carrying the
label `app: shop`: key `tier` is absent (Equals false, NotEquals true), key
`app` is present (NotEquals is the negation of Equals), and a project whose
label group fails is not matched. -/
theorem c5_witness :
    matchesLabelSelector shopDeployment "tier" { operator := "Equals", value := "x" } = false ∧
    matchesLabelSelector shopDeployment "tier" { operator := "NotEquals", value := "x" } = true ∧
    matchesLabelSelector shopDeployment "app" { operator := "NotEquals", value := "shop" } =
      (!matchesLabelSelector shopDeployment "app" { operator := "Equals", value := "shop" }) ∧
    matchesProject shopDeployment
      { baseProject with labelSelectors := [("app", { operator := "Equals", value := "cart" })] } =
      false := by
  have h := c5_label_selector_semantics shopDeployment
    { baseProject with labelSelectors := [("app", { operator := "Equals", value := "cart" })] }
    "tier" "x"
  have habs := h.2.2.1 (by decide)
  have hneg := (c5_label_selector_semantics shopDeployment baseProject "app" "shop").2.2.2
    "shop" (by decide)
  exact ⟨habs.1, habs.2, hneg, h.2.1 (by decide) (by decide)⟩

/-- C8 data: the resource rebuilt with an explicit empty labels mapping,
keeping its (possibly absent) namespace and name. -/
def withEmptyLabels (resource : KubeObject) : KubeObject :=
  { resource with
    metadata := some { name := (resource.metadata.map fun m => m.name).getD ""
                       namespace' := resourceNamespace resource
                       labels := some [] } }

/-- C8: the matcher is total on malformed input. Totality (returning a
Boolean, never raising) is intrinsic to the model; the contentful part is
that for a resource whose metadata or labels mapping is absent, both
`matchesProject` and `matchesLabelSelector` give the same answer as on the
resource with the labels replaced by the empty mapping. -/
theorem c8_malformed_input_as_empty_labels (resource : KubeObject)
    (project : ProjectDefinition) (key : String) (selector : StringSelector)
    (h : resource.metadata = none ∨ (resource.metadata.bind fun m => m.labels) = none) :
    matchesProject resource project = matchesProject (withEmptyLabels resource) project ∧
    matchesLabelSelector resource key selector =
      matchesLabelSelector (withEmptyLabels resource) key selector := by
  have hlab : resourceLabels resource = [] := by
    rcases h with h | h <;> simp [resourceLabels, h]
  have hlab' : resourceLabels (withEmptyLabels resource) = [] := rfl
  have hml : ∀ k s, matchesLabelSelector (withEmptyLabels resource) k s =
      matchesLabelSelector resource k s := by
    intro k s
    simp only [matchesLabelSelector, hlab, hlab']
  have hns : resourceNamespace (withEmptyLabels resource) = resourceNamespace resource := rfl
  have hkind : (withEmptyLabels resource).kind = resource.kind := rfl
  have hcl : (withEmptyLabels resource).cluster = resource.cluster := rfl
  refine ⟨?_, (hml key selector).symm⟩
  rw [matchesProject_eq_conj, matchesProject_eq_conj]
  simp only [hns, hml, hkind, hcl]

/-- C8 witness: the equivalence at a concrete resource with no metadata at
all, against the all-empty base project and a concrete label selector. -/
theorem c8_witness :
    matchesProject bareResource baseProject =
      matchesProject (withEmptyLabels bareResource) baseProject ∧
    matchesLabelSelector bareResource "app" { operator := "Equals", value := "x" } =
      matchesLabelSelector (withEmptyLabels bareResource) "app"
        { operator := "Equals", value := "x" } :=
  c8_malformed_input_as_empty_labels bareResource baseProject "app"
    { operator := "Equals", value := "x" } (Or.inl rfl)

/-- C9: a label selector whose operator is neither `Equals` nor `NotEquals`
(such as the `Exists` and `NotExists` options offered by the form UI) falls
into the `default` branch of `matchesLabelSelector` and evaluates false for
every resource and key; consequently any project carrying such an entry in
its `labelSelectors` matches no resource. -/
theorem c9_unknown_operator_matches_nothing (resource : KubeObject)
    (project : ProjectDefinition) (key : String) (selector : StringSelector)
    (h1 : selector.operator ≠ "Equals") (h2 : selector.operator ≠ "NotEquals") :
    matchesLabelSelector resource key selector = false ∧
    ((key, selector) ∈ project.labelSelectors → matchesProject resource project = false) := by
  have hfalse : matchesLabelSelector resource key selector = false := by
    simp [matchesLabelSelector, h1, h2]
  refine ⟨hfalse, fun hmem => ?_⟩
  rw [matchesProject_eq_conj]
  have hall : (project.labelSelectors.all fun kv =>
      matchesLabelSelector resource kv.1 kv.2) = false := by
    rw [List.all_eq_false]
    exact ⟨(key, selector), hmem, by simp [hfalse]⟩
  simp [hall]

/-- C9 data: a project whose label group holds an `Exists` selector. -/
def c9Project : ProjectDefinition :=
  { baseProject with labelSelectors := [("app", { operator := "Exists", value := "" })] }

/-- C9 witness: the `Exists` operator evaluates false even on a resource
that does carry the `app` label, and `c9Project` does not match it. -/
theorem c9_witness :
    matchesLabelSelector shopDeployment "app" { operator := "Exists", value := "" } = false ∧
    matchesProject shopDeployment c9Project = false := by
  have h := c9_unknown_operator_matches_nothing shopDeployment c9Project "app"
    { operator := "Exists", value := "" } (by decide) (by decide)
  exact ⟨h.1, h.2 (by decide)⟩

/-- C10: a project with a non-empty `namespaceSelectors` group never matches
a resource with no namespace (a cluster-scoped resource): the comparison
`ns.value === undefined` is false for every selector, whatever its operator
and value. -/
theorem c10_cluster_scoped_never_matches (resource : KubeObject)
    (project : ProjectDefinition) (h1 : project.namespaceSelectors ≠ [])
    (h2 : resourceNamespace resource = none) :
    matchesProject resource project = false := by
  rw [matchesProject_eq_conj]
  have hsome : ∀ w : String, ((some w : Option String) == none) = false := fun w => rfl
  have hany : (project.namespaceSelectors.any fun ns =>
      some ns.value == resourceNamespace resource) = false := by
    rw [List.any_eq_false]
    intro s _
    rw [h2, hsome]
    exact Bool.false_ne_true
  have hie : project.namespaceSelectors.isEmpty = false := by
    cases hp : project.namespaceSelectors with
    | nil => exact absurd hp h1
    | cons a l => rfl
  simp [hany, hie]

/-- C10 witness: a metadata-less (hence namespace-less) resource against a
project selecting namespace `default`. -/
theorem c10_witness :
    matchesProject bareResource
      { baseProject with namespaceSelectors := [{ operator := "Equals", value := "default" }] } =
      false :=
  c10_cluster_scoped_never_matches bareResource
    { baseProject with namespaceSelectors := [{ operator := "Equals", value := "default" }] }
    (by decide) rfl

end Headlamp
